import Mathlib

/-!
Shallow embedding of the core conversion pipeline of
`location_history_to_kml.py` (class `LocationHistoryConverter`):
coordinate and timestamp parsing, record classification, the date filter,
day-keyed aggregation and the structural part of the KML serialization.

Modelling conventions:
* Python floats are modelled exactly as unreduced fractions (`PyFloat`,
  an integer numerator over a positive power-of-ten denominator); every
  float produced by this program is of that shape, and the only float
  test the program performs on coordinates is comparison with zero,
  which holds for the fraction iff it holds for the IEEE double.
* Python dicts holding decoded JSON are modelled by structures with
  `Option` fields (a `none` field models an absent key, and also a falsy
  value wherever the program only ever tests the field for truthiness).
* Python `datetime` values are modelled by `PyDatetime`; a `none`
  `tzinfo` models a zone-naive value.  Comparing a zone-naive with a
  zone-aware value raises `TypeError` in Python, modelled by `Option`
  results (`none` = exception).
* The serializer is modelled structurally: the stream of folder open and
  close events, identifiers and placemarks it writes, in write order,
  with the fixed textual payload (styles, descriptions) abstracted into
  single tokens.
-/

namespace GoogleEarthTravel

/-- Exact model of a floating-point number produced by this program: an
integer numerator over a (positive) denominator.  Every float the
converter creates is a decimal literal or an integer divided by
10,000,000.0, so this representation is exact. -/
structure PyFloat where
  num : ℤ
  den : ℕ := 1
  deriving DecidableEq, Repr

/-- Rational value of a modelled float. -/
def PyFloat.val (x : PyFloat) : ℚ := (x.num : ℚ) / (x.den : ℚ)

/-- Model of a Python `datetime`: calendar fields plus an optional UTC
offset in minutes.  A `none` offset models a zone-naive datetime. -/
structure PyDatetime where
  year : ℕ
  month : ℕ
  day : ℕ
  hour : ℕ := 0
  minute : ℕ := 0
  second : ℕ := 0
  tzinfo : Option ℤ := none
  deriving DecidableEq, Repr

/-- Days since 1970-01-01 of a proleptic-Gregorian calendar date
(standard civil-from-days algorithm, as used by Python datetime
arithmetic). -/
def daysFromCivil (y m d : ℕ) : ℤ :=
  let yy : ℤ := if m ≤ 2 then (y : ℤ) - 1 else (y : ℤ)
  let era : ℤ := (if 0 ≤ yy then yy else yy - 399) / 400
  let yoe : ℤ := yy - era * 400
  let doy : ℤ := (153 * (if 2 < m then (m : ℤ) - 3 else (m : ℤ) + 9) + 2) / 5 + (d : ℤ) - 1
  let doe : ℤ := yoe * 365 + yoe / 4 - yoe / 100 + doy
  era * 146097 + doe - 719468

/-- Timeline position of a datetime in seconds (UTC for aware values,
local fields for naive values), the quantity Python compares. -/
def PyDatetime.instantSeconds (dt : PyDatetime) : ℤ :=
  daysFromCivil dt.year dt.month dt.day * 86400
    + (dt.hour : ℤ) * 3600 + (dt.minute : ℤ) * 60 + (dt.second : ℤ)
    - 60 * dt.tzinfo.getD 0

/-- Python comparison `a < b` on datetimes: defined between two naive or
two aware values, raises `TypeError` (modelled `none`) when exactly one
side carries zone information. -/
def pyLtDatetime (a b : PyDatetime) : Option Bool :=
  match a.tzinfo, b.tzinfo with
  | none, none => some (decide (a.instantSeconds < b.instantSeconds))
  | some _, some _ => some (decide (a.instantSeconds < b.instantSeconds))
  | _, _ => none

/-- Lexicographic comparison of character lists by code point, the
ordering Python uses on strings (`sorted`, `<`). -/
def charListLt : List Char → List Char → Bool
  | _, [] => false
  | [], _ :: _ => true
  | a :: as, b :: bs =>
    if a.toNat < b.toNat then true
    else if b.toNat < a.toNat then false
    else charListLt as bs

/-- Python string comparison `a < b`. -/
def strLt (a b : String) : Bool := charListLt a.data b.data

/-- Split of a character list at every occurrence of a separator, the
behaviour of the Python single-character `str.split`. -/
def splitOnChar (sep : Char) : List Char → List (List Char)
  | [] => [[]]
  | c :: rest =>
    let r := splitOnChar sep rest
    if c = sep then [] :: r
    else
      match r with
      | g :: gs => (c :: g) :: gs
      | [] => [[c]]

/-- Accumulated numeric value of a list of decimal digit characters. -/
def natOfDigits (l : List Char) : ℕ :=
  l.foldl (fun n c => n * 10 + (c.toNat - 48)) 0

/-- Model of the Python builtin `float`, restricted to the plain decimal
literals this program feeds it (optional sign, digits, optional single
decimal point; no exponent, infinity or whitespace forms). -/
def pyFloat (s : String) : Option PyFloat :=
  let p : ℤ × List Char :=
    match s.data with
    | '+' :: rest => (1, rest)
    | '-' :: rest => (-1, rest)
    | rest => (1, rest)
  match splitOnChar '.' p.2 with
  | [ip] =>
    if ip ≠ [] ∧ ip.all Char.isDigit then
      some { num := p.1 * natOfDigits ip }
    else none
  | [ip, fp] =>
    if (ip ≠ [] ∨ fp ≠ []) ∧ ip.all Char.isDigit ∧ fp.all Char.isDigit then
      some { num := p.1 * (natOfDigits ip * 10 ^ fp.length + natOfDigits fp),
             den := 10 ^ fp.length }
    else none
  | _ => none

/-- Reads one decimal digit character. -/
def readDigit (c : Char) : Option ℕ :=
  if c.isDigit then some (c.toNat - 48) else none

/-- Reads exactly two decimal digits from the front of a character
list. -/
def readTwo : List Char → Option (ℕ × List Char)
  | a :: b :: rest => do
    let da ← readDigit a
    let db ← readDigit b
    some (da * 10 + db, rest)
  | _ => none

/-- Reads exactly four decimal digits from the front of a character
list. -/
def readFour : List Char → Option (ℕ × List Char)
  | a :: b :: c :: d :: rest => do
    let da ← readDigit a
    let db ← readDigit b
    let dc ← readDigit c
    let dd ← readDigit d
    some (((da * 10 + db) * 10 + dc) * 10 + dd, rest)
  | _ => none

/-- Consumes an expected character from the front of a character
list. -/
def expectChar (c : Char) : List Char → Option (List Char)
  | x :: rest => if x = c then some rest else none
  | [] => none

/-- Model of `datetime.fromisoformat`, covering the shapes this
converter feeds it: `YYYY-MM-DD`, optionally followed by one separator
character and `HH:MM:SS`, optionally followed by a numeric offset
`+HH:MM` or `-HH:MM`.  Any other input is a `ValueError`, modelled as
`none`. -/
def fromisoformat (s : String) : Option PyDatetime := do
  let cs := s.data
  let (y, cs) ← readFour cs
  let cs ← expectChar '-' cs
  let (mo, cs) ← readTwo cs
  let cs ← expectChar '-' cs
  let (d, cs) ← readTwo cs
  if 1 ≤ mo ∧ mo ≤ 12 ∧ 1 ≤ d ∧ d ≤ 31 then
    match cs with
    | [] => some { year := y, month := mo, day := d }
    | _ :: cs => do
      let (h, cs) ← readTwo cs
      let cs ← expectChar ':' cs
      let (mi, cs) ← readTwo cs
      let cs ← expectChar ':' cs
      let (sec, cs) ← readTwo cs
      if h ≤ 23 ∧ mi ≤ 59 ∧ sec ≤ 59 then
        match cs with
        | [] => some { year := y, month := mo, day := d,
                       hour := h, minute := mi, second := sec }
        | sign :: cs => do
          let sgn : ℤ ← if sign = '+' then some 1
                        else if sign = '-' then some (-1) else none
          let (oh, cs) ← readTwo cs
          let cs ← expectChar ':' cs
          let (om, cs) ← readTwo cs
          match cs with
          | [] => some { year := y, month := mo, day := d,
                         hour := h, minute := mi, second := sec,
                         tzinfo := some (sgn * ((oh : ℤ) * 60 + om)) }
          | _ => none
      else none
  else none

/-- Embedding of `LocationHistoryConverter.parse_timestamp`: empty and
falsy input gives `None`; a trailing `Z` is rewritten to `+00:00`;
otherwise the string is handed to `fromisoformat` (the `elif` and `else`
arms of the source both do exactly that). -/
def parse_timestamp (timestamp_str : String) : Option PyDatetime :=
  if timestamp_str = "" then none
  else if timestamp_str.data.getLast? = some 'Z' then
    fromisoformat (String.mk timestamp_str.data.dropLast ++ "+00:00")
  else if ('+' ∈ timestamp_str.data)
          ∨ 2 < (timestamp_str.data.filter (· = '-')).length then
    fromisoformat timestamp_str
  else
    fromisoformat timestamp_str

/-- Timestamp parsing applied to an optional field, as in
`self.parse_timestamp(entry.get(key))`: a missing key hands `None` to
the parser, which its falsy-input check turns into `None`. -/
def parse_ts_field (o : Option String) : Option PyDatetime :=
  match o with
  | none => none
  | some s => parse_timestamp s

/-- Embedding of `LocationHistoryConverter.parse_geo_coordinate`:
accepts `geo:<lat>,<lon>`, rejects a missing or falsy string, a missing
prefix, a split of length other than two, and numeric conversion
failure. -/
def parse_geo_coordinate (geo_string : Option String) : Option (PyFloat × PyFloat) :=
  match geo_string with
  | none => none
  | some gs =>
    match gs.data with
    | 'g' :: 'e' :: 'o' :: ':' :: rest =>
      match splitOnChar ',' rest with
      | [a, b] =>
        match pyFloat (String.mk a), pyFloat (String.mk b) with
        | some lat, some lon => some (lat, lon)
        | _, _ => none
      | _ => none
    | _ => none

/-- Decimal rendering of a natural number, left-padded with zeros to a
given width (the behaviour of `strftime` field formatting). -/
def zeroPad (w n : ℕ) : String :=
  let s := toString n
  String.mk (List.replicate (w - s.data.length) '0') ++ s

/-- Embedding of `LocationHistoryConverter.get_date_key`:
`dt.strftime("%Y-%m-%d")`, reading the calendar fields of the value
without any zone conversion. -/
def get_date_key (dt : PyDatetime) : String :=
  zeroPad 4 dt.year ++ "-" ++ zeroPad 2 dt.month ++ "-" ++ zeroPad 2 dt.day

/-! Raw decoded JSON records, as handed to the converter. -/

/-- One point of a `simplifiedRawPath` or `waypointPath` list: optional
fixed-point integer coordinates (`point.get` supplies a default of 0 for
a missing key). -/
structure RawPoint where
  latE7 : Option ℤ := none
  lngE7 : Option ℤ := none
  deriving DecidableEq, Repr

/-- One stop of a `transitPath` list, with its differently named
fixed-point fields. -/
structure TransitStop where
  latitudeE7 : Option ℤ := none
  longitudeE7 : Option ℤ := none
  deriving DecidableEq, Repr

/-- The `simplifiedRawPath` sub-object.  The surrounding `Option` is
`none` for an absent or falsy value; `points := none` models a missing
or falsy `points` key inside a truthy object. -/
structure SimplifiedRawPath where
  points : Option (List RawPoint) := none
  deriving DecidableEq, Repr

/-- The `waypointPath` sub-object. -/
structure WaypointPath where
  waypoints : Option (List RawPoint) := none
  deriving DecidableEq, Repr

/-- The `transitPath` sub-object. -/
structure TransitPath where
  transitStops : Option (List TransitStop) := none
  deriving DecidableEq, Repr

/-- The `topCandidate` sub-object of an activity record. -/
structure ActivityTopCandidate where
  type : Option String := none
  deriving DecidableEq, Repr

/-- The `activity` sub-object of a raw record.  `end_` stands for the
JSON key `end`, which is a reserved word here. -/
structure RawActivity where
  start : Option String := none
  end_ : Option String := none
  topCandidate : Option ActivityTopCandidate := none
  probability : Option PyFloat := none
  distanceMeters : Option PyFloat := none
  simplifiedRawPath : Option SimplifiedRawPath := none
  waypointPath : Option WaypointPath := none
  transitPath : Option TransitPath := none
  deriving DecidableEq, Repr

/-- The `topCandidate` sub-object of a visit record. -/
structure VisitTopCandidate where
  placeLocation : Option String := none
  placeID : Option String := none
  semanticType : Option String := none
  deriving DecidableEq, Repr

/-- The `visit` sub-object of a raw record. -/
structure RawVisit where
  topCandidate : Option VisitTopCandidate := none
  probability : Option PyFloat := none
  hierarchyLevel : Option String := none
  deriving DecidableEq, Repr

/-- One raw location-history record. -/
structure Entry where
  startTime : Option String := none
  endTime : Option String := none
  activity : Option RawActivity := none
  visit : Option RawVisit := none
  deriving DecidableEq, Repr

/-! Normalized records, the dicts built by `process_activity`,
`process_visit` and `create_track_from_activity`. -/

/-- The normalized activity dict built by `process_activity` (the
constant `type` key is omitted; the three path objects are carried over
verbatim for track derivation). -/
structure Activity where
  activity_type : String
  start_time : Option PyDatetime
  end_time : Option PyDatetime
  start_coords : Option (PyFloat × PyFloat)
  end_coords : Option (PyFloat × PyFloat)
  probability : PyFloat
  distance : Option PyFloat
  simplified_raw_path : Option SimplifiedRawPath
  waypoint_path : Option WaypointPath
  transit_path : Option TransitPath
  deriving DecidableEq, Repr

/-- The normalized visit dict built by `process_visit`. -/
structure Visit where
  start_time : Option PyDatetime
  end_time : Option PyDatetime
  coords : PyFloat × PyFloat
  place_id : Option String
  semantic_type : String
  probability : PyFloat
  hierarchy_level : String
  deriving DecidableEq, Repr

/-- The track dict built by `create_track_from_activity`. -/
structure Track where
  coordinates : List (PyFloat × PyFloat)
  start_time : Option PyDatetime
  end_time : Option PyDatetime
  activity_type : String
  distance : Option PyFloat
  track_type : String
  deriving DecidableEq, Repr

/-- Embedding of `LocationHistoryConverter.process_activity`. -/
def process_activity (entry : Entry) : Option Activity :=
  let activity := entry.activity.getD {}
  let start_time := parse_ts_field entry.startTime
  let end_time := parse_ts_field entry.endTime
  let start_coords := parse_geo_coordinate activity.start
  let end_coords := parse_geo_coordinate activity.end_
  let activity_type := (activity.topCandidate.getD {}).type.getD "Unknown"
  let probability := activity.probability.getD { num := 0 }
  let distance := activity.distanceMeters
  if start_coords = none ∧ end_coords = none then none
  else some { activity_type, start_time, end_time, start_coords, end_coords,
              probability, distance,
              simplified_raw_path := activity.simplifiedRawPath,
              waypoint_path := activity.waypointPath,
              transit_path := activity.transitPath }

/-- Embedding of `LocationHistoryConverter.process_visit`. -/
def process_visit (entry : Entry) : Option Visit :=
  let visit := entry.visit.getD {}
  let start_time := parse_ts_field entry.startTime
  let end_time := parse_ts_field entry.endTime
  let top_candidate := visit.topCandidate.getD {}
  match parse_geo_coordinate top_candidate.placeLocation with
  | none => none
  | some location_coords =>
    some { start_time, end_time, coords := location_coords,
           place_id := top_candidate.placeID,
           semantic_type := top_candidate.semanticType.getD "Unknown",
           probability := visit.probability.getD { num := 0 },
           hierarchy_level := visit.hierarchyLevel.getD "0" }

/-! Track derivation (`create_track_from_activity`, `get_track_type`). -/

/-- Fixed-point decoding of one integer component: division by
10,000,000.0 (`point.get(key, 0) / 10000000.0`). -/
def e7ToPyFloat (n : ℤ) : PyFloat := { num := n, den := 10000000 }

/-- The point loop shared by the `simplifiedRawPath` and `waypointPath`
branches of `create_track_from_activity`: each point is E7-decoded and
appended unless a zero component makes it invalid
(`if lat != 0 and lon != 0`). -/
def e7PointsToCoords (points : List RawPoint) : List (PyFloat × PyFloat) :=
  points.foldr
    (fun point acc =>
      let lat := e7ToPyFloat (point.latE7.getD 0)
      let lon := e7ToPyFloat (point.lngE7.getD 0)
      if lat.num ≠ 0 ∧ lon.num ≠ 0 then (lat, lon) :: acc else acc)
    []

/-- The stop loop of the `transitPath` branch, identical except for the
field names. -/
def transitStopsToCoords (stops : List TransitStop) : List (PyFloat × PyFloat) :=
  stops.foldr
    (fun stop acc =>
      let lat := e7ToPyFloat (stop.latitudeE7.getD 0)
      let lon := e7ToPyFloat (stop.longitudeE7.getD 0)
      if lat.num ≠ 0 ∧ lon.num ≠ 0 then (lat, lon) :: acc else acc)
    []

/-- Guard of the first branch of `create_track_from_activity`:
`activity.get("simplified_raw_path") and
activity["simplified_raw_path"].get("points")` — a truthy path object
whose point list is present and nonempty. -/
def gpsPointsOf (a : Activity) : Option (List RawPoint) :=
  match a.simplified_raw_path with
  | some srp =>
    match srp.points with
    | some (p :: ps) => some (p :: ps)
    | _ => none
  | none => none

/-- Guard of the second branch: a truthy `waypoint_path` with a present,
nonempty waypoint list. -/
def wpPointsOf (a : Activity) : Option (List RawPoint) :=
  match a.waypoint_path with
  | some wp =>
    match wp.waypoints with
    | some (p :: ps) => some (p :: ps)
    | _ => none
  | none => none

/-- Guard of the third branch: a truthy `transit_path` with a present,
nonempty stop list. -/
def transitStopsOf (a : Activity) : Option (List TransitStop) :=
  match a.transit_path with
  | some tp =>
    match tp.transitStops with
    | some (s :: ss) => some (s :: ss)
    | _ => none
  | none => none

/-- The `coordinates` variable of `create_track_from_activity`: the
if/elif chain selecting the first matching path source, with the
two-point start/end fallback last. -/
def trackCoordinates (a : Activity) : List (PyFloat × PyFloat) :=
  match gpsPointsOf a with
  | some points => e7PointsToCoords points
  | none =>
    match wpPointsOf a with
    | some waypoints => e7PointsToCoords waypoints
    | none =>
      match transitStopsOf a with
      | some stops => transitStopsToCoords stops
      | none =>
        match a.start_coords, a.end_coords with
        | some sc, some ec => [sc, ec]
        | _, _ => []

/-- Embedding of `LocationHistoryConverter.get_track_type`: a priority
test on the truthiness of the three path fields alone. -/
def get_track_type (a : Activity) : String :=
  if a.simplified_raw_path.isSome then "gps_track"
  else if a.waypoint_path.isSome then "waypoint_track"
  else if a.transit_path.isSome then "transit_track"
  else "simple_track"

/-- Embedding of `LocationHistoryConverter.create_track_from_activity`:
the selected coordinate list must have at least two points, otherwise no
track is produced. -/
def create_track_from_activity (a : Activity) : Option Track :=
  let coordinates := trackCoordinates a
  if coordinates.length < 2 then none
  else some { coordinates,
              start_time := a.start_time, end_time := a.end_time,
              activity_type := a.activity_type, distance := a.distance,
              track_type := get_track_type a }

/-! Filter stage. -/

/-- The entry-time selection of `filter_by_date_range`: the parsed
`startTime` when that key is present, else the parsed `endTime` when
that key is present, else no time.  (The fallback happens on key
absence only: a present but unparsable `startTime` yields no time and
no fallback.) -/
def entry_time_of (entry : Entry) : Option PyDatetime :=
  match entry.startTime with
  | some ts => parse_timestamp ts
  | none =>
    match entry.endTime with
    | some ts => parse_timestamp ts
    | none => none

/-- Embedding of `LocationHistoryConverter.filter_by_date_range`.  The
result is `some included`, or `none` when the Python code raises
`TypeError` out of a mixed naive/aware comparison.  The two
normalization blocks of the source are reproduced in order: the first
promotes a naive bound to UTC when the entry time is aware; the second
(which strips the entry time for naive bounds) tests the already
promoted bounds and is therefore dead code, exactly as in the source. -/
def filter_by_date_range (entry : Entry) (start_date end_date : Option PyDatetime) :
    Option Bool :=
  if start_date = none ∧ end_date = none then some true
  else
    match entry_time_of entry with
    | none => some true
    | some et0 =>
      let start_date := start_date.map fun sd =>
        if sd.tzinfo = none ∧ et0.tzinfo ≠ none then { sd with tzinfo := some 0 } else sd
      let end_date := end_date.map fun ed =>
        if ed.tzinfo = none ∧ et0.tzinfo ≠ none then { ed with tzinfo := some 0 } else ed
      let et1 :=
        match start_date with
        | some sd => if sd.tzinfo = none ∧ et0.tzinfo ≠ none then { et0 with tzinfo := none } else et0
        | none => et0
      let entry_time :=
        match end_date with
        | some ed => if ed.tzinfo = none ∧ et1.tzinfo ≠ none then { et1 with tzinfo := none } else et1
        | none => et1
      match start_date with
      | some sd =>
        match pyLtDatetime entry_time sd with
        | none => none
        | some true => some false
        | some false =>
          match end_date with
          | some ed =>
            match pyLtDatetime ed entry_time with
            | none => none
            | some true => some false
            | some false => some true
          | none => some true
      | none =>
        match end_date with
        | some ed =>
          match pyLtDatetime ed entry_time with
          | none => none
          | some true => some false
          | some false => some true
        | none => some true

/-- Embedding of `LocationHistoryConverter.filter_by_accuracy`: both the
no-threshold arm and the placeholder arm return `True`. -/
def filter_by_accuracy (_entry : Entry) (min_accuracy : Option PyFloat) : Bool :=
  match min_accuracy with
  | none => true
  | some _ => true

/-! Aggregation state and the per-entry processing step of
`convert_to_kml`. -/

/-- The `stats` counter dict of the converter. -/
structure Stats where
  total_entries : ℕ := 0
  activities : ℕ := 0
  visits : ℕ := 0
  tracks : ℕ := 0
  filtered_out : ℕ := 0
  deriving DecidableEq, Repr

/-- A `defaultdict(list)` keyed by day strings: an association list in
key insertion order, each key holding its list in append order. -/
abbrev Bucket (α : Type) : Type := List (String × List α)

/-- Appends a value under a key, creating the key at the end on first
use (`defaultdict(list)[key].append(value)`). -/
def bucketAdd {α : Type} (m : Bucket α) (k : String) (v : α) : Bucket α :=
  match m with
  | [] => [(k, [v])]
  | (k', vs) :: rest =>
    if k' = k then (k', vs ++ [v]) :: rest else (k', vs) :: bucketAdd rest k v

/-- Keys of a day map, in insertion order. -/
def bucketKeys {α : Type} (m : Bucket α) : List String := m.map Prod.fst

/-- Lookup in a day map; an absent key gives the empty list. -/
def bucketGet {α : Type} (m : Bucket α) (k : String) : List α :=
  match m with
  | [] => []
  | (k', vs) :: rest => if k' = k then vs else bucketGet rest k

/-- Mutable collections of one `LocationHistoryConverter` instance. -/
structure ConvState where
  activities : List Activity := []
  visits : List Visit := []
  tracks : List Track := []
  activities_by_day : Bucket Activity := []
  visits_by_day : Bucket Visit := []
  tracks_by_day : Bucket Track := []
  stats : Stats := {}
  deriving DecidableEq, Repr

/-- The state of a freshly constructed converter. -/
def initState : ConvState := {}

/-- The run configuration of `convert_to_kml`, with its keyword
defaults. -/
structure Config where
  start_date : Option PyDatetime := none
  end_date : Option PyDatetime := none
  min_accuracy : Option PyFloat := none
  include_activities : Bool := true
  include_visits : Bool := true
  group_by_day : Bool := false
  include_tracks : Bool := true
  deriving DecidableEq, Repr

/-- Track sub-block of the activity branch of the processing loop:
appends a derived track and, when grouping, buckets it under the day key
of the activity start time. -/
def addTrack (cfg : Config) (s : ConvState) (processed : Activity) : ConvState :=
  if cfg.include_tracks then
    match create_track_from_activity processed with
    | none => s
    | some track_segment =>
      let s1 := { s with tracks := s.tracks ++ [track_segment],
                         stats := { s.stats with tracks := s.stats.tracks + 1 } }
      match cfg.group_by_day, processed.start_time with
      | true, some st =>
        { s1 with tracks_by_day := bucketAdd s1.tracks_by_day (get_date_key st) track_segment }
      | _, _ => s1
  else s

/-- Activity branch of the processing loop body. -/
def addActivity (cfg : Config) (s : ConvState) (processed : Activity) : ConvState :=
  let s1 := { s with activities := s.activities ++ [processed],
                     stats := { s.stats with activities := s.stats.activities + 1 } }
  let s2 := addTrack cfg s1 processed
  match cfg.group_by_day, processed.start_time with
  | true, some st =>
    { s2 with activities_by_day := bucketAdd s2.activities_by_day (get_date_key st) processed }
  | _, _ => s2

/-- Visit branch of the processing loop body. -/
def addVisit (cfg : Config) (s : ConvState) (processed : Visit) : ConvState :=
  let s1 := { s with visits := s.visits ++ [processed],
                     stats := { s.stats with visits := s.stats.visits + 1 } }
  match cfg.group_by_day, processed.start_time with
  | true, some st =>
    { s1 with visits_by_day := bucketAdd s1.visits_by_day (get_date_key st) processed }
  | _, _ => s1

/-- One iteration of the entry loop of `convert_to_kml`: count the
entry, apply the two filters, then dispatch on the record kind.  A
`none` result models an uncaught `TypeError` escaping from the date
filter and aborting the run. -/
def processEntry (cfg : Config) (s : ConvState) (entry : Entry) : Option ConvState :=
  let s := { s with stats := { s.stats with total_entries := s.stats.total_entries + 1 } }
  match filter_by_date_range entry cfg.start_date cfg.end_date with
  | none => none
  | some false =>
    some { s with stats := { s.stats with filtered_out := s.stats.filtered_out + 1 } }
  | some true =>
    if filter_by_accuracy entry cfg.min_accuracy = false then
      some { s with stats := { s.stats with filtered_out := s.stats.filtered_out + 1 } }
    else if entry.activity.isSome && cfg.include_activities then
      match process_activity entry with
      | none => some s
      | some processed => some (addActivity cfg s processed)
    else if entry.visit.isSome && cfg.include_visits then
      match process_visit entry with
      | none => some s
      | some processed => some (addVisit cfg s processed)
    else some s

/-- The entry loop of `convert_to_kml` over a record list. -/
def processEntries (cfg : Config) (entries : List Entry) (s : ConvState) :
    Option ConvState :=
  match entries with
  | [] => some s
  | e :: rest =>
    match processEntry cfg s e with
    | none => none
    | some s' => processEntries cfg rest s'

/-! KML serialization, modelled structurally: the stream of folder and
placemark events in write order, identifiers included, with the fixed
textual payload (prologue, styles, names, descriptions) abstracted into
tokens. -/

/-- Start or end role of an activity point placemark. -/
inductive PointType where
  | startPoint
  | endPoint
  deriving DecidableEq, Repr

/-- One placemark, carrying the data that decides whether and with what
geometry it is emitted. -/
inductive Placemark where
  | activityPoint (point_type : PointType) (coords : PyFloat × PyFloat) (time : PyDatetime)
  | visitPoint (coords : PyFloat × PyFloat)
  | trackLine (coordinates : List (PyFloat × PyFloat))
  deriving DecidableEq, Repr

/-- One event of the serialized output stream. -/
inductive KmlElem where
  | header
  | styles
  | folderOpen (id : String)
  | folderClose
  | pm (p : Placemark)
  | footer
  deriving DecidableEq, Repr

/-- The `str.replace("-", "_")` applied to day keys when forming
sub-folder identifiers. -/
def replaceHyphens (s : String) : String :=
  String.mk (s.data.map fun c => if c = '-' then '_' else c)

/-- Whether a string contains a hyphen. -/
def containsHyphen (s : String) : Bool := s.data.any (· = '-')

/-- Embedding of `write_activity_placemark`: the start or end
coordinates and timestamp are both required
(`if not coords or not time: return`); a coordinate pair and a datetime
are always truthy in Python, so the test is presence. -/
def write_activity_placemark (activity : Activity) (point_type : PointType) :
    List KmlElem :=
  let coords := match point_type with
    | .startPoint => activity.start_coords
    | .endPoint => activity.end_coords
  let time := match point_type with
    | .startPoint => activity.start_time
    | .endPoint => activity.end_time
  match coords, time with
  | some c, some t => [.pm (.activityPoint point_type c t)]
  | _, _ => []

/-- Per-activity body of the emission loops of `write_activities_folder`
and `write_daily_activities_folder` (the two loops are textually
identical in the source): a start placemark when `start_coords` is
truthy, then an end placemark when `end_coords` is truthy. -/
def activityElems (activity : Activity) : List KmlElem :=
  (if activity.start_coords.isSome then write_activity_placemark activity .startPoint else [])
    ++ (if activity.end_coords.isSome then write_activity_placemark activity .endPoint else [])

/-- Embedding of `write_activities_folder` (flat mode). -/
def write_activities_folder (activities : List Activity) : List KmlElem :=
  .folderOpen "activities" :: (activities.flatMap activityElems ++ [.folderClose])

/-- Embedding of `write_visit_placemark`: always emits its point. -/
def write_visit_placemark (visit : Visit) : List KmlElem :=
  [.pm (.visitPoint visit.coords)]

/-- Embedding of `write_visits_folder` (flat mode). -/
def write_visits_folder (visits : List Visit) : List KmlElem :=
  .folderOpen "visits" :: (visits.flatMap write_visit_placemark ++ [.folderClose])

/-- Embedding of `write_track_placemark`: a line placemark unless fewer
than two coordinates are present. -/
def write_track_placemark (track : Track) : List KmlElem :=
  if track.coordinates.length < 2 then []
  else [.pm (.trackLine track.coordinates)]

/-- Embedding of `write_tracks_folder` (flat mode): nothing at all when
no track was collected. -/
def write_tracks_folder (tracks : List Track) : List KmlElem :=
  if tracks = [] then []
  else .folderOpen "tracks" :: (tracks.flatMap write_track_placemark ++ [.folderClose])

/-- Category tag of a per-day sub-folder. -/
inductive SubKind where
  | activities
  | visits
  | tracks
  deriving DecidableEq, Repr

/-- One per-day sub-folder: its identifier, category and placemark
stream. -/
structure SubFolder where
  id : String
  kind : SubKind
  elems : List KmlElem
  deriving DecidableEq, Repr

/-- One day folder of grouped output. -/
structure DayFolder where
  id : String
  dayKey : String
  subfolders : List SubFolder
  deriving DecidableEq, Repr

/-- Embedding of `write_daily_activities_folder`: identifier
`activities_` plus the day key with hyphens replaced, and the same
per-activity loop as the flat folder. -/
def write_daily_activities_folder (date_key : String) (activities : List Activity) :
    SubFolder :=
  { id := "activities_" ++ replaceHyphens date_key,
    kind := .activities,
    elems := activities.flatMap activityElems }

/-- Embedding of `write_daily_visits_folder`. -/
def write_daily_visits_folder (date_key : String) (visits : List Visit) : SubFolder :=
  { id := "visits_" ++ replaceHyphens date_key,
    kind := .visits,
    elems := visits.flatMap write_visit_placemark }

/-- Embedding of `write_daily_tracks_folder`. -/
def write_daily_tracks_folder (date_key : String) (tracks : List Track) : SubFolder :=
  { id := "tracks_" ++ replaceHyphens date_key,
    kind := .tracks,
    elems := tracks.flatMap write_track_placemark }

/-- Insertion into a strictly ascending list of strings, skipping
duplicates. -/
def insertSortedNoDup (x : String) : List String → List String
  | [] => [x]
  | y :: ys =>
    if x = y then y :: ys
    else if strLt x y then x :: y :: ys
    else y :: insertSortedNoDup x ys

/-- Model of `sorted(set(l))`: the distinct members of `l` in strictly
ascending string order. -/
def sortedDedup (l : List String) : List String :=
  l.foldr insertSortedNoDup []

/-- Embedding of `write_daily_folders`: the union of the activity and
visit day keys (the source does not add the track day keys), iterated
in ascending order; for each day a folder with identifier `day_` plus
the key (no hyphen replacement), holding the up to three sub-folders in
the fixed activities, visits, tracks order, each present exactly when
the day key is in the respective map with a nonempty list. -/
def write_daily_folders (s : ConvState) : List DayFolder :=
  let all_dates := bucketKeys s.activities_by_day ++ bucketKeys s.visits_by_day
  let sorted_dates := sortedDedup all_dates
  sorted_dates.map fun date_key =>
    { id := "day_" ++ date_key,
      dayKey := date_key,
      subfolders :=
        (if date_key ∈ bucketKeys s.activities_by_day
            ∧ bucketGet s.activities_by_day date_key ≠ [] then
          [write_daily_activities_folder date_key (bucketGet s.activities_by_day date_key)]
        else [])
        ++ (if date_key ∈ bucketKeys s.visits_by_day
               ∧ bucketGet s.visits_by_day date_key ≠ [] then
          [write_daily_visits_folder date_key (bucketGet s.visits_by_day date_key)]
        else [])
        ++ (if date_key ∈ bucketKeys s.tracks_by_day
               ∧ bucketGet s.tracks_by_day date_key ≠ [] then
          [write_daily_tracks_folder date_key (bucketGet s.tracks_by_day date_key)]
        else []) }

/-- Event stream of one sub-folder. -/
def flattenSub (sf : SubFolder) : List KmlElem :=
  .folderOpen sf.id :: (sf.elems ++ [.folderClose])

/-- Event stream of one day folder. -/
def flattenDay (df : DayFolder) : List KmlElem :=
  .folderOpen df.id :: (df.subfolders.flatMap flattenSub ++ [.folderClose])

/-- Embedding of `write_kml`: prologue and styles, then either the day
folders or the flat category folders (activities and visits only when
nonempty, tracks whenever requested), then the closing tags. -/
def write_kml (s : ConvState) (group_by_day include_tracks : Bool) : List KmlElem :=
  [.header, .styles]
    ++ (if group_by_day then (write_daily_folders s).flatMap flattenDay
        else
          (if s.activities ≠ [] then write_activities_folder s.activities else [])
            ++ (if s.visits ≠ [] then write_visits_folder s.visits else [])
            ++ (if include_tracks then write_tracks_folder s.tracks else []))
    ++ [.footer]

/-- Embedding of the record-to-output core of `convert_to_kml`: process
every entry from the given converter state, then serialize; `none`
models an uncaught exception aborting the run before output. -/
def convert_to_kml (cfg : Config) (data : List Entry) (s : ConvState) :
    Option (List KmlElem) :=
  (processEntries cfg data s).map fun s' =>
    write_kml s' cfg.group_by_day cfg.include_tracks

/-! Helper functions and lemmas for the claim theorems. -/

/-- Whether an output event is an activity point placemark of the given
role. -/
def isActivityPm (pt : PointType) : KmlElem → Bool
  | .pm (.activityPoint q _ _) => decide (q = pt)
  | _ => false

/-- Number of activity point placemarks of a given role in an output
stream. -/
def countPms (pt : PointType) (l : List KmlElem) : ℕ :=
  (l.filter (isActivityPm pt)).length

lemma countPms_append (pt : PointType) (l₁ l₂ : List KmlElem) :
    countPms pt (l₁ ++ l₂) = countPms pt l₁ + countPms pt l₂ := by
  simp [countPms, List.filter_append]

lemma countPms_start_activityElems (a : Activity) :
    countPms .startPoint (activityElems a)
      = if a.start_coords.isSome && a.start_time.isSome then 1 else 0 := by
  rcases hsc : a.start_coords with _ | sc <;> rcases hst : a.start_time with _ | st <;>
    rcases hec : a.end_coords with _ | ec <;> rcases het : a.end_time with _ | et <;>
      simp [activityElems, write_activity_placemark, countPms, isActivityPm, hsc, hst, hec, het]

lemma countPms_end_activityElems (a : Activity) :
    countPms .endPoint (activityElems a)
      = if a.end_coords.isSome && a.end_time.isSome then 1 else 0 := by
  rcases hsc : a.start_coords with _ | sc <;> rcases hst : a.start_time with _ | st <;>
    rcases hec : a.end_coords with _ | ec <;> rcases het : a.end_time with _ | et <;>
      simp [activityElems, write_activity_placemark, countPms, isActivityPm, hsc, hst, hec, het]

lemma countPms_start_flatMap (acts : List Activity) :
    countPms .startPoint (acts.flatMap activityElems)
      = (acts.filter fun a => a.start_coords.isSome && a.start_time.isSome).length := by
  induction acts with
  | nil => simp [countPms]
  | cons a rest ih =>
    rw [List.flatMap_cons, countPms_append, countPms_start_activityElems, ih, List.filter_cons]
    by_cases h1 : a.start_coords.isSome = true <;> by_cases h2 : a.start_time.isSome = true <;>
      simp [h1, h2, Nat.add_comm]

lemma countPms_end_flatMap (acts : List Activity) :
    countPms .endPoint (acts.flatMap activityElems)
      = (acts.filter fun a => a.end_coords.isSome && a.end_time.isSome).length := by
  induction acts with
  | nil => simp [countPms]
  | cons a rest ih =>
    rw [List.flatMap_cons, countPms_append, countPms_end_activityElems, ih, List.filter_cons]
    by_cases h1 : a.end_coords.isSome = true <;> by_cases h2 : a.end_time.isSome = true <;>
      simp [h1, h2, Nat.add_comm]

/-- Raw record whose activity has a valid start geo string but an
unparsable start timestamp. -/
def e1 : Entry :=
  { startTime := some "garbage",
    activity := some { start := some "geo:1.0,2.0" } }

/-- Claim C1, counterexample: the stored activity produced from `e1` is
kept and has a start coordinate but no parsed start time, and both the
flat and the grouped activity serialization emit zero placemarks for it,
not the one placemark the claim requires. -/
theorem c1_counterexample :
    (process_activity e1).map (fun a =>
        (a.start_coords.isSome, a.end_coords.isSome,
          countPms .startPoint (write_activities_folder [a])
            + countPms .endPoint (write_activities_folder [a]),
          countPms .startPoint (write_daily_activities_folder "2024-01-01" [a]).elems))
      = some (true, false, 0, 0) := by
  decide

/-- Claim C1 (amended): in both flat and grouped serialization, a stored
activity yields a start point placemark exactly when both its start
coordinate and its parsed start time are present, and an end point
placemark exactly when both its end coordinate and its parsed end time
are present. -/
theorem c1_placemark_iff_coord_and_time :
    ∀ (acts : List Activity) (dk : String),
      countPms .startPoint (write_activities_folder acts)
          = (acts.filter fun a => a.start_coords.isSome && a.start_time.isSome).length
        ∧ countPms .endPoint (write_activities_folder acts)
          = (acts.filter fun a => a.end_coords.isSome && a.end_time.isSome).length
        ∧ countPms .startPoint (write_daily_activities_folder dk acts).elems
          = (acts.filter fun a => a.start_coords.isSome && a.start_time.isSome).length
        ∧ countPms .endPoint (write_daily_activities_folder dk acts).elems
          = (acts.filter fun a => a.end_coords.isSome && a.end_time.isSome).length := by
  intro acts dk
  have hflat : ∀ pt, countPms pt (write_activities_folder acts)
      = countPms pt (acts.flatMap activityElems) := by
    intro pt
    simp [write_activities_folder, countPms, List.filter_cons, List.filter_append, isActivityPm]
  refine ⟨?_, ?_, ?_, ?_⟩
  · rw [hflat, countPms_start_flatMap]
  · rw [hflat, countPms_end_flatMap]
  · rw [write_daily_activities_folder]; exact countPms_start_flatMap acts
  · rw [write_daily_activities_folder]; exact countPms_end_flatMap acts

/-- Claim C4, counterexample: a path point whose latitude component is
exactly zero but whose longitude is not is dropped by the decoder, where
the claim requires it to be kept. -/
theorem c4_counterexample :
    e7PointsToCoords [{ latE7 := some 0, lngE7 := some 1141736730 }] = []
      ∧ (e7ToPyFloat 1141736730).val ≠ 0
      ∧ (e7ToPyFloat 0).val = 0 := by
  refine ⟨by decide, ?_, ?_⟩ <;> norm_num [e7ToPyFloat, PyFloat.val]

/-- Claim C4 (amended): fixed-point decoding divides each integer
component by 10,000,000.0, and the decoded point is dropped if and only
if at least one of the two resulting values equals exactly 0.0 (for the
raw/waypoint point loop and the transit stop loop alike). -/
theorem c4_e7_drop_iff_either_component_zero :
    ∀ (p : RawPoint) (t : TransitStop) (ps : List RawPoint) (ts : List TransitStop),
      (e7ToPyFloat (p.latE7.getD 0)).val = (p.latE7.getD 0 : ℚ) / 10000000
        ∧ e7PointsToCoords (p :: ps) =
            (if (e7ToPyFloat (p.latE7.getD 0)).val = 0 ∨ (e7ToPyFloat (p.lngE7.getD 0)).val = 0
             then e7PointsToCoords ps
             else (e7ToPyFloat (p.latE7.getD 0), e7ToPyFloat (p.lngE7.getD 0))
                    :: e7PointsToCoords ps)
        ∧ transitStopsToCoords (t :: ts) =
            (if (e7ToPyFloat (t.latitudeE7.getD 0)).val = 0
                ∨ (e7ToPyFloat (t.longitudeE7.getD 0)).val = 0
             then transitStopsToCoords ts
             else (e7ToPyFloat (t.latitudeE7.getD 0), e7ToPyFloat (t.longitudeE7.getD 0))
                    :: transitStopsToCoords ts) := by
  have hval : ∀ n : ℤ, (e7ToPyFloat n).val = (n : ℚ) / 10000000 := by
    intro n; norm_num [e7ToPyFloat, PyFloat.val]
  have hzero : ∀ n : ℤ, (e7ToPyFloat n).val = 0 ↔ n = 0 := by
    intro n
    rw [hval]
    constructor
    · intro h
      have := div_eq_zero_iff.mp h
      rcases this with h1 | h1
      · exact_mod_cast h1
      · norm_num at h1
    · intro h; rw [h]; norm_num
  have hcons : ∀ (p : RawPoint) (ps : List RawPoint),
      e7PointsToCoords (p :: ps)
        = if p.latE7.getD 0 ≠ 0 ∧ p.lngE7.getD 0 ≠ 0
          then (e7ToPyFloat (p.latE7.getD 0), e7ToPyFloat (p.lngE7.getD 0))
                 :: e7PointsToCoords ps
          else e7PointsToCoords ps := fun _ _ => rfl
  have htcons : ∀ (t : TransitStop) (ts : List TransitStop),
      transitStopsToCoords (t :: ts)
        = if t.latitudeE7.getD 0 ≠ 0 ∧ t.longitudeE7.getD 0 ≠ 0
          then (e7ToPyFloat (t.latitudeE7.getD 0), e7ToPyFloat (t.longitudeE7.getD 0))
                 :: transitStopsToCoords ts
          else transitStopsToCoords ts := fun _ _ => rfl
  intro p t ps ts
  refine ⟨hval _, ?_, ?_⟩
  · rw [hcons]
    by_cases hla : p.latE7.getD 0 = 0
    · rw [if_neg (fun h => h.1 hla), if_pos (Or.inl ((hzero _).mpr hla))]
    · by_cases hlo : p.lngE7.getD 0 = 0
      · rw [if_neg (fun h => h.2 hlo), if_pos (Or.inr ((hzero _).mpr hlo))]
      · have hne : ¬((e7ToPyFloat (p.latE7.getD 0)).val = 0
              ∨ (e7ToPyFloat (p.lngE7.getD 0)).val = 0) := by
          rintro (h | h)
          · exact hla ((hzero _).mp h)
          · exact hlo ((hzero _).mp h)
        rw [if_pos ⟨hla, hlo⟩, if_neg hne]
  · rw [htcons]
    by_cases hla : t.latitudeE7.getD 0 = 0
    · rw [if_neg (fun h => h.1 hla), if_pos (Or.inl ((hzero _).mpr hla))]
    · by_cases hlo : t.longitudeE7.getD 0 = 0
      · rw [if_neg (fun h => h.2 hlo), if_pos (Or.inr ((hzero _).mpr hlo))]
      · have hne : ¬((e7ToPyFloat (t.latitudeE7.getD 0)).val = 0
              ∨ (e7ToPyFloat (t.longitudeE7.getD 0)).val = 0) := by
          rintro (h | h)
          · exact hla ((hzero _).mp h)
          · exact hlo ((hzero _).mp h)
        rw [if_pos ⟨hla, hlo⟩, if_neg hne]

/-! Claim C2: path-source precedence and track labels. -/

/-- The four path sources named by the specification. -/
inductive TrackSource where
  | gps
  | waypoint
  | transit
  | simple
  deriving DecidableEq, Repr

/-- Source labels as they appear in track dicts. -/
def trackSourceLabel : TrackSource → String
  | .gps => "gps_track"
  | .waypoint => "waypoint_track"
  | .transit => "transit_track"
  | .simple => "simple_track"

/-- The branch of `create_track_from_activity` that supplies the
coordinates, following the claim wording (the branch guards, in
order). -/
def coordSource (a : Activity) : Option TrackSource :=
  match gpsPointsOf a with
  | some _ => some .gps
  | none =>
    match wpPointsOf a with
    | some _ => some .waypoint
    | none =>
      match transitStopsOf a with
      | some _ => some .transit
      | none =>
        match a.start_coords, a.end_coords with
        | some _, some _ => some .simple
        | _, _ => none

/-- Two valid E7 path points used by the Claim C2 inputs. -/
def twoRawPoints : List RawPoint :=
  [{ latE7 := some 10000000, lngE7 := some 20000000 },
   { latE7 := some 30000000, lngE7 := some 40000000 }]

/-- Activity carrying a truthy `simplifiedRawPath` object whose point
list is empty, plus a waypoint path with two valid waypoints. -/
def a2 : Activity :=
  { activity_type := "walking", start_time := none, end_time := none,
    start_coords := none, end_coords := none,
    probability := { num := 0 }, distance := none,
    simplified_raw_path := some { points := some [] },
    waypoint_path := some { waypoints := some twoRawPoints },
    transit_path := none }

/-- Claim C2, counterexample: for `a2` the coordinates are supplied by
the waypoint branch, but the track is labelled `gps_track`, because
`get_track_type` tests only the presence of the path fields while the
coordinate chain also requires a nonempty point list. -/
theorem c2_counterexample :
    (create_track_from_activity a2).map (fun t => (t.coordinates, t.track_type))
        = some ([(e7ToPyFloat 10000000, e7ToPyFloat 20000000),
                 (e7ToPyFloat 30000000, e7ToPyFloat 40000000)], "gps_track")
      ∧ coordSource a2 = some .waypoint
      ∧ trackSourceLabel .waypoint ≠ "gps_track" := by
  decide

/-- Claim C2 (amended): the coordinate chain evaluates the path sources
in strict priority order with first match winning (a path source matches
when its field is truthy and its point list is present and nonempty; the
fallback matches when both endpoint coordinates are present), and the
produced label corresponds to the coordinate-supplying branch whenever
every present path field has a present nonempty point list; when a path
field is present with an empty or missing point list the label comes
from the field-presence priority test alone and can disagree with the
supplying branch. -/
theorem c2_precedence_and_label :
    ∀ (a : Activity) (t : Track),
      (∀ pts, gpsPointsOf a = some pts → trackCoordinates a = e7PointsToCoords pts)
        ∧ (∀ pts, gpsPointsOf a = none → wpPointsOf a = some pts →
            trackCoordinates a = e7PointsToCoords pts)
        ∧ (∀ sts, gpsPointsOf a = none → wpPointsOf a = none →
            transitStopsOf a = some sts → trackCoordinates a = transitStopsToCoords sts)
        ∧ (∀ sc ec, gpsPointsOf a = none → wpPointsOf a = none → transitStopsOf a = none →
            a.start_coords = some sc → a.end_coords = some ec → trackCoordinates a = [sc, ec])
        ∧ ((a.simplified_raw_path.isSome ↔ (gpsPointsOf a).isSome) →
           (a.waypoint_path.isSome ↔ (wpPointsOf a).isSome) →
           (a.transit_path.isSome ↔ (transitStopsOf a).isSome) →
           create_track_from_activity a = some t →
           ∃ src, coordSource a = some src ∧ t.track_type = trackSourceLabel src) := by
  intro a t
  refine ⟨?_, ?_, ?_, ?_, ?_⟩
  · intro pts h; simp [trackCoordinates, h]
  · intro pts h1 h2; simp [trackCoordinates, h1, h2]
  · intro sts h1 h2 h3; simp [trackCoordinates, h1, h2, h3]
  · intro sc ec h1 h2 h3 h4 h5; simp [trackCoordinates, h1, h2, h3, h4, h5]
  · intro hg hw ht hc
    have htt : t.track_type = get_track_type a := by
      by_cases hlen : (trackCoordinates a).length < 2
      · simp [create_track_from_activity, hlen] at hc
      · simp [create_track_from_activity, hlen] at hc
        rw [← hc]
    rcases hsrp : gpsPointsOf a with _ | pts
    · rcases hwp : wpPointsOf a with _ | pts
      · rcases htp : transitStopsOf a with _ | sts
        · rcases hsc : a.start_coords with _ | sc
          · exfalso
            have : trackCoordinates a = [] := by
              simp [trackCoordinates, hsrp, hwp, htp, hsc]
            simp [create_track_from_activity, this] at hc
          · rcases hec : a.end_coords with _ | ec
            · exfalso
              have : trackCoordinates a = [] := by
                simp [trackCoordinates, hsrp, hwp, htp, hsc, hec]
              simp [create_track_from_activity, this] at hc
            · refine ⟨.simple, ?_, ?_⟩
              · simp [coordSource, hsrp, hwp, htp, hsc, hec]
              · have h1 : a.simplified_raw_path = none := by
                  rcases h : a.simplified_raw_path with _ | v
                  · rfl
                  · rw [h, hsrp] at hg; simp at hg
                have h2 : a.waypoint_path = none := by
                  rcases h : a.waypoint_path with _ | v
                  · rfl
                  · rw [h, hwp] at hw; simp at hw
                have h3 : a.transit_path = none := by
                  rcases h : a.transit_path with _ | v
                  · rfl
                  · rw [h, htp] at ht; simp at ht
                rw [htt]; simp [get_track_type, h1, h2, h3, trackSourceLabel]
        · refine ⟨.transit, ?_, ?_⟩
          · simp [coordSource, hsrp, hwp, htp]
          · have h1 : a.simplified_raw_path = none := by
              rcases h : a.simplified_raw_path with _ | v
              · rfl
              · rw [h, hsrp] at hg; simp at hg
            have h2 : a.waypoint_path = none := by
              rcases h : a.waypoint_path with _ | v
              · rfl
              · rw [h, hwp] at hw; simp at hw
            have h3 : a.transit_path.isSome := by rw [ht, htp]; rfl
            rw [htt]
            simp [get_track_type, h1, h2, Option.isSome_iff_exists.mp h3, trackSourceLabel]
            rcases Option.isSome_iff_exists.mp h3 with ⟨v, hv⟩
            simp [hv, trackSourceLabel]
      · refine ⟨.waypoint, ?_, ?_⟩
        · simp [coordSource, hsrp, hwp]
        · have h1 : a.simplified_raw_path = none := by
            rcases h : a.simplified_raw_path with _ | v
            · rfl
            · rw [h, hsrp] at hg; simp at hg
          have h2 : a.waypoint_path.isSome := by rw [hw, hwp]; rfl
          rcases Option.isSome_iff_exists.mp h2 with ⟨v, hv⟩
          rw [htt]; simp [get_track_type, h1, hv, trackSourceLabel]
    · refine ⟨.gps, ?_, ?_⟩
      · simp [coordSource, hsrp]
      · have h1 : a.simplified_raw_path.isSome := by rw [hg, hsrp]; rfl
        rcases Option.isSome_iff_exists.mp h1 with ⟨v, hv⟩
        rw [htt]; simp [get_track_type, hv, trackSourceLabel]

/-- Activity with a valid two-point simplified raw path. -/
def a2w : Activity :=
  { activity_type := "walking", start_time := none, end_time := none,
    start_coords := none, end_coords := none,
    probability := { num := 0 }, distance := none,
    simplified_raw_path := some { points := some twoRawPoints },
    waypoint_path := none, transit_path := none }

/-- The track derived from `a2w`. -/
def t2w : Track :=
  { coordinates := [(e7ToPyFloat 10000000, e7ToPyFloat 20000000),
                    (e7ToPyFloat 30000000, e7ToPyFloat 40000000)],
    start_time := none, end_time := none, activity_type := "walking",
    distance := none, track_type := "gps_track" }

/-- Witness for `c2_precedence_and_label` at the concrete activity
`a2w`, discharging every hypothesis of its final conjunct. -/
theorem c2_witness :
    ∃ src, coordSource a2w = some src ∧ t2w.track_type = trackSourceLabel src :=
  (c2_precedence_and_label a2w t2w).2.2.2.2
    (by decide) (by decide) (by decide) (by decide)

/-! Claim C3: identifiers derived from day keys. -/

lemma data_append (a b : String) : (a ++ b).data = a.data ++ b.data := by
  cases a; cases b; rfl

lemma containsHyphen_append (a b : String) :
    containsHyphen (a ++ b) = (containsHyphen a || containsHyphen b) := by
  simp [containsHyphen, data_append]

lemma containsHyphen_replaceHyphens (s : String) :
    containsHyphen (replaceHyphens s) = false := by
  simp only [containsHyphen, replaceHyphens, List.any_map, List.any_eq_false]
  intro c _
  by_cases h : c = '-' <;> simp [h, Function.comp]

lemma mem_if_singleton {α : Type} {c : Prop} [Decidable c] {x y : α}
    (h : x ∈ (if c then [y] else [])) : x = y := by
  by_cases hc : c <;> simp [hc] at h
  exact h

/-- Raw visit record on 2024-03-01 with a resolvable place location. -/
def e3entry : Entry :=
  { startTime := some "2024-03-01T10:00:00Z",
    visit := some { topCandidate := some { placeLocation := some "geo:22.3,114.1" } } }

/-- A grouped-output configuration. -/
def cfgGrouped : Config := { group_by_day := true }

/-- Claim C3, counterexample: running the pipeline on one visit dated
2024-03-01 in grouped mode emits a day folder whose identifier
`day_2024-03-01` retains the hyphens of the day key, where the claim
requires every identifier derived from a day key to have its hyphens
replaced. -/
theorem c3_counterexample :
    (processEntries cfgGrouped [e3entry] initState).map
        (fun s => (write_daily_folders s).map (·.id)) = some ["day_2024-03-01"]
      ∧ containsHyphen "day_2024-03-01" = true := by
  decide

/-- Claim C3 (amended): in grouped output the three per-day sub-folder
identifiers (activities, visits, tracks) are hyphen-free — the day key
hyphens are replaced with underscores — while the day folder identifier
itself is `day_` followed by the unmodified day key, hyphens
included. -/
theorem c3_subfolder_ids_hyphen_free :
    ∀ (s : ConvState) (df : DayFolder) (sf : SubFolder),
      df ∈ write_daily_folders s →
        df.id = "day_" ++ df.dayKey
          ∧ (sf ∈ df.subfolders → containsHyphen sf.id = false) := by
  intro s df sf hdf
  rw [write_daily_folders] at hdf
  simp only [List.mem_map] at hdf
  obtain ⟨dk, _, rfl⟩ := hdf
  refine ⟨rfl, ?_⟩
  intro hsf
  have hid : sf.id = "activities_" ++ replaceHyphens dk
      ∨ sf.id = "visits_" ++ replaceHyphens dk
      ∨ sf.id = "tracks_" ++ replaceHyphens dk := by
    rcases List.mem_append.mp hsf with h | h
    · rcases List.mem_append.mp h with h' | h'
      · exact Or.inl (by rw [mem_if_singleton h']; rfl)
      · exact Or.inr (Or.inl (by rw [mem_if_singleton h']; rfl))
    · exact Or.inr (Or.inr (by rw [mem_if_singleton h]; rfl))
  rcases hid with h | h | h <;>
    rw [h, containsHyphen_append, containsHyphen_replaceHyphens] <;> decide

/-- A visit record value used by the Claim C3 witness. -/
def v3w : Visit :=
  { start_time := none, end_time := none,
    coords := (e7ToPyFloat 1, e7ToPyFloat 1),
    place_id := none, semantic_type := "Unknown",
    probability := { num := 0 }, hierarchy_level := "0" }

/-- Converter state holding one day-bucketed visit. -/
def s3w : ConvState := { visits_by_day := [("2024-03-02", [v3w])] }

/-- Witness for `c3_subfolder_ids_hyphen_free` at the concrete state
`s3w`, discharging both membership hypotheses. -/
theorem c3_witness :
    containsHyphen (write_daily_visits_folder "2024-03-02" [v3w]).id = false :=
  (c3_subfolder_ids_hyphen_free s3w
      { id := "day_" ++ "2024-03-02", dayKey := "2024-03-02",
        subfolders := [write_daily_visits_folder "2024-03-02" [v3w]] }
      (write_daily_visits_folder "2024-03-02" [v3w]) (by decide)).2 (by decide)

/-! Claim C5: visits without a resolvable location. -/

/-- Raw visit record whose top candidate has no place location. -/
def e5 : Entry :=
  { visit := some { topCandidate := some { placeLocation := none } } }

/-- Claim C5, counterexample: processing `e5` drops the visit from every
collection but leaves the filtered-out counter at zero, where the claim
requires it to be incremented. -/
theorem c5_counterexample :
    (processEntries {} [e5] initState).map
        (fun s => (s.visits, s.visits_by_day, s.stats.filtered_out, s.stats.total_entries))
      = some ([], [], 0, 1) := by
  decide

/-- Claim C5 (amended): an entry whose visit lacks a resolvable place
location and that passes the date filter leaves the converter state
unchanged except for the total-entries counter: the visit appears in no
collection and no output, and the filtered-out counter is NOT
incremented (it only counts date and accuracy filter rejections). -/
theorem c5_dropped_visit_only_counts_total :
    ∀ (cfg : Config) (s : ConvState) (e : Entry),
      filter_by_date_range e cfg.start_date cfg.end_date = some true →
      (e.activity.isSome && cfg.include_activities) = false →
      process_visit e = none →
      processEntry cfg s e
        = some { s with stats :=
            { s.stats with total_entries := s.stats.total_entries + 1 } } := by
  intro cfg s e hf hact hv
  have hacc : filter_by_accuracy e cfg.min_accuracy = true := by
    unfold filter_by_accuracy; split <;> rfl
  by_cases hvb : (e.visit.isSome && cfg.include_visits) = true <;>
    simp [processEntry, hf, hacc, hact, hvb, hv]

/-- Witness for `c5_dropped_visit_only_counts_total` at the default
configuration, the fresh converter state and the record `e5`. -/
theorem c5_witness :
    processEntry {} initState e5
      = some { initState with stats :=
          { initState.stats with total_entries := initState.stats.total_entries + 1 } } :=
  c5_dropped_visit_only_counts_total {} initState e5 (by decide) (by decide) (by decide)

/-! Claim C6: entry-time selection of the date filter. -/

lemma filter_congr_entry_time (e e' : Entry) (sd ed : Option PyDatetime)
    (h : entry_time_of e = entry_time_of e') :
    filter_by_date_range e sd ed = filter_by_date_range e' sd ed := by
  unfold filter_by_date_range
  rw [h]

/-- Raw record with an unparsable start timestamp and a parsable end
timestamp. -/
def e6 : Entry := { startTime := some "garbage", endTime := some "2020-01-01T00:00:00" }

/-- Start bound 2024-01-01 (zone-naive). -/
def d6 : PyDatetime := { year := 2024, month := 1, day := 1 }

/-- Claim C6, counterexample: the start timestamp of `e6` is present
but unparsable while its end time parses to 2020-01-01, strictly below
the configured start bound 2024-01-01; the claimed fallback would
exclude the record, but the filter includes it (it falls back on key
absence only). -/
theorem c6_counterexample :
    filter_by_date_range e6 (some d6) none = some true
      ∧ parse_timestamp "garbage" = none
      ∧ parse_timestamp "2020-01-01T00:00:00" = some { year := 2020, month := 1, day := 1 }
      ∧ pyLtDatetime { year := 2020, month := 1, day := 1 } d6 = some true := by
  decide

/-- Claim C6 (amended): the date filter evaluates the parsed start
timestamp whenever the startTime key is present — a present but
unparsable start timestamp yields inclusion by default, with no fallback
to the end time; the fallback to the end time happens exactly when the
startTime key is absent; and a record where both keys are absent is
included. -/
theorem c6_fallback_on_key_absence_only :
    ∀ (e : Entry) (sd ed : Option PyDatetime) (ts : String),
      (e.startTime = some ts → parse_timestamp ts = none →
          filter_by_date_range e sd ed = some true)
        ∧ (e.startTime = none →
          filter_by_date_range e sd ed
            = filter_by_date_range { e with startTime := e.endTime, endTime := none } sd ed)
        ∧ (e.startTime = none → e.endTime = none →
          filter_by_date_range e sd ed = some true) := by
  intro e sd ed ts
  refine ⟨?_, ?_, ?_⟩
  · intro h1 h2
    have het : entry_time_of e = none := by simp [entry_time_of, h1, h2]
    unfold filter_by_date_range
    rw [het]
    split <;> rfl
  · intro h1
    apply filter_congr_entry_time
    rcases h2 : e.endTime with _ | ts' <;> simp [entry_time_of, h1, h2]
  · intro h1 h2
    have het : entry_time_of e = none := by simp [entry_time_of, h1, h2]
    unfold filter_by_date_range
    rw [het]
    split <;> rfl

/-- Witness for `c6_fallback_on_key_absence_only` at the record `e6`
and start bound `d6`, discharging the hypotheses of its first
conjunct. -/
theorem c6_witness : filter_by_date_range e6 (some d6) none = some true :=
  (c6_fallback_on_key_absence_only e6 (some d6) none "garbage").1 rfl (by decide)

/-! Claim C7: mixed naive/aware comparison in the date filter. -/

/-- Raw record whose start timestamp parses to a zone-naive
datetime. -/
def e7entry : Entry := { startTime := some "2024-06-01T08:00:00" }

/-- Zone-aware start bound 2024-01-01T00:00:00+00:00. -/
def d7 : PyDatetime := { year := 2024, month := 1, day := 1, tzinfo := some 0 }

/-- Claim C7: comparing the zone-naive entry time of `e7entry` with the
zone-aware bound `d7` raises `TypeError` (modelled as `none`): the
normalization of the filter promotes naive bounds when the entry time is
aware, but handles the reverse combination in a dead block, so a
zone-naive entry time against a zone-aware bound reaches the raw Python
comparison and fails. -/
theorem c7_naive_entry_aware_bound_raises :
    filter_by_date_range e7entry (some d7) none = none
      ∧ (parse_timestamp "2024-06-01T08:00:00").map (·.tzinfo) = some none := by
  decide

/-! Claim C9: determinism of fresh runs. -/

/-- Claim C9: two runs of the full conversion pipeline on identical
input and identical configuration, each starting from a fresh converter
state, produce identical serialized output. -/
theorem c9_fresh_runs_identical :
    ∀ (cfg : Config) (data : List Entry) (s1 s2 : ConvState),
      s1 = initState → s2 = initState →
      convert_to_kml cfg data s1 = convert_to_kml cfg data s2 := by
  intro cfg data s1 s2 h1 h2
  rw [h1, h2]

/-- Witness for `c9_fresh_runs_identical` on a concrete one-record
input. -/
theorem c9_witness :
    convert_to_kml cfgGrouped [e3entry] initState
      = convert_to_kml cfgGrouped [e3entry] initState :=
  c9_fresh_runs_identical cfgGrouped [e3entry] initState initState rfl rfl

/-! Claim C10: the tracks-by-day keys are covered by the
activities-by-day keys. -/

lemma mem_bucketKeys_bucketAdd {α : Type} (m : Bucket α) (k : String) (v : α)
    (x : String) :
    x ∈ bucketKeys (bucketAdd m k v) ↔ x ∈ bucketKeys m ∨ x = k := by
  induction m with
  | nil => simp [bucketAdd, bucketKeys]
  | cons p rest ih =>
    obtain ⟨k', vs⟩ := p
    by_cases h : k' = k <;> simp [bucketAdd, bucketKeys, h] at ih ⊢ <;> tauto

/-- Invariant: every key of the tracks-by-day map is a key of the
activities-by-day map. -/
def tracksSubsetActivities (s : ConvState) : Prop :=
  ∀ k, k ∈ bucketKeys s.tracks_by_day → k ∈ bucketKeys s.activities_by_day

lemma tracksInv_addActivity (cfg : Config) (s : ConvState) (p : Activity)
    (h : tracksSubsetActivities s) : tracksSubsetActivities (addActivity cfg s p) := by
  intro x hx
  rcases hg : cfg.group_by_day <;> rcases hst : p.start_time with _ | st <;>
    rcases hit : cfg.include_tracks <;>
      rcases hct : create_track_from_activity p with _ | tr <;>
        simp [addActivity, addTrack, hg, hst, hit, hct,
          mem_bucketKeys_bucketAdd] at hx ⊢ <;>
          first
            | exact h x hx
            | exact Or.inl (h x hx)
            | (rcases hx with hx | hx
               · exact Or.inl (h x hx)
               · exact Or.inr hx)

lemma tracksInv_addVisit (cfg : Config) (s : ConvState) (v : Visit)
    (h : tracksSubsetActivities s) : tracksSubsetActivities (addVisit cfg s v) := by
  intro x hx
  rcases hg : cfg.group_by_day <;> rcases hst : v.start_time with _ | st <;>
    simp only [addVisit, hg, hst] at hx ⊢ <;> exact h x hx

lemma tracksInv_step {cfg : Config} {s : ConvState} {e : Entry} {s' : ConvState}
    (hp : processEntry cfg s e = some s') (h : tracksSubsetActivities s) :
    tracksSubsetActivities s' := by
  unfold processEntry at hp
  have hacc : filter_by_accuracy e cfg.min_accuracy = true := by
    unfold filter_by_accuracy; split <;> rfl
  rcases hf : filter_by_date_range e cfg.start_date cfg.end_date with _ | b
  · rw [hf] at hp; simp at hp
  · rw [hf] at hp
    rcases b
    · simp only [Option.some.injEq] at hp
      subst hp
      exact fun x hx => h x hx
    · rw [hacc] at hp
      simp only [Bool.true_eq_false, if_false] at hp
      by_cases hab : (e.activity.isSome && cfg.include_activities) = true
      · rw [if_pos hab] at hp
        rcases hpa : process_activity e with _ | p <;> rw [hpa] at hp <;>
          simp only [Option.some.injEq] at hp <;> subst hp
        · exact fun x hx => h x hx
        · exact tracksInv_addActivity cfg _ p (fun x hx => h x hx)
      · rw [if_neg hab] at hp
        by_cases hvb : (e.visit.isSome && cfg.include_visits) = true
        · rw [if_pos hvb] at hp
          rcases hpv : process_visit e with _ | v <;> rw [hpv] at hp <;>
            simp only [Option.some.injEq] at hp <;> subst hp
          · exact fun x hx => h x hx
          · exact tracksInv_addVisit cfg _ v (fun x hx => h x hx)
        · rw [if_neg hvb] at hp
          simp only [Option.some.injEq] at hp
          subst hp
          exact fun x hx => h x hx

lemma tracksInv_run : ∀ (data : List Entry) (cfg : Config) (s s' : ConvState),
    processEntries cfg data s = some s' →
    tracksSubsetActivities s → tracksSubsetActivities s' := by
  intro data
  induction data with
  | nil =>
    intro cfg s s' hp h
    unfold processEntries at hp
    simp only [Option.some.injEq] at hp
    subst hp
    exact h
  | cons e rest ih =>
    intro cfg s s' hp h
    unfold processEntries at hp
    rcases hp1 : processEntry cfg s e with _ | s1 <;> rw [hp1] at hp
    · simp at hp
    · exact ih cfg s1 s' hp (tracksInv_step hp1 h)

/-- Claim C10: the invariant that every day key of the tracks-by-day map
is also a key of the activities-by-day map holds for the fresh converter
state and is kept by every processing step, so iterating the union of
activity and visit day keys loses no track day. -/
theorem c10_tracks_day_keys_covered :
    tracksSubsetActivities initState
      ∧ ∀ (cfg : Config) (s : ConvState) (e : Entry) (s' : ConvState),
          processEntry cfg s e = some s' →
          tracksSubsetActivities s → tracksSubsetActivities s' := by
  constructor
  · intro k hk
    simp [initState, bucketKeys] at hk
  · intro cfg s e s' hp h
    exact tracksInv_step hp h

/-- Path points for the Claim C10 witness record. -/
def e10pts : List RawPoint :=
  [{ latE7 := some 10000000, lngE7 := some 20000000 },
   { latE7 := some 30000000, lngE7 := some 40000000 }]

/-- Activity record dated 2024-03-01 with a valid raw path, producing a
day-bucketed track. -/
def e10 : Entry :=
  { startTime := some "2024-03-01T10:00:00Z",
    activity := some { start := some "geo:1.0,2.0",
                       simplifiedRawPath := some { points := some e10pts } } }

/-- Grouped configuration for the Claim C10 witness. -/
def cfg10 : Config := { group_by_day := true }

/-- State after one processing step on `e10`. -/
def s10 : ConvState := (processEntry cfg10 initState e10).getD initState

/-- Witness for `c10_tracks_day_keys_covered`: after processing `e10`
the day key 2024-03-01 of the bucketed track is indeed a key of the
activities-by-day map. -/
theorem c10_witness : "2024-03-01" ∈ bucketKeys s10.activities_by_day :=
  (c10_tracks_day_keys_covered.2 cfg10 initState e10 s10 (by decide)
      c10_tracks_day_keys_covered.1) "2024-03-01" (by decide)

/-! Claim C8: day folder enumeration and sub-folder layout. -/

lemma charListLt_trans : ∀ a b c : List Char,
    charListLt a b = true → charListLt b c = true → charListLt a c = true := by
  intro a
  induction a with
  | nil =>
    intro b c h1 h2
    cases b with
    | nil => simp [charListLt] at h1
    | cons y ys =>
      cases c with
      | nil => simp [charListLt] at h2
      | cons z zs => rfl
  | cons x xs ih =>
    intro b c h1 h2
    cases b with
    | nil => simp [charListLt] at h1
    | cons y ys =>
      cases c with
      | nil => simp [charListLt] at h2
      | cons z zs =>
        simp only [charListLt] at h1 h2 ⊢
        by_cases hxy : x.toNat < y.toNat
        · by_cases hyz : y.toNat < z.toNat
          · simp [Nat.lt_trans hxy hyz]
          · by_cases hzy : z.toNat < y.toNat
            · rw [if_neg hyz, if_pos hzy] at h2
              simp at h2
            · have hyzeq : y.toNat = z.toNat :=
                Nat.le_antisymm (Nat.le_of_not_lt hzy) (Nat.le_of_not_lt hyz)
              simp [show x.toNat < z.toNat from hyzeq ▸ hxy]
        · by_cases hyx : y.toNat < x.toNat
          · rw [if_neg hxy, if_pos hyx] at h1
            simp at h1
          · have hxyeq : x.toNat = y.toNat :=
              Nat.le_antisymm (Nat.le_of_not_lt hyx) (Nat.le_of_not_lt hxy)
            rw [if_neg hxy, if_neg hyx] at h1
            by_cases hyz : y.toNat < z.toNat
            · simp [show x.toNat < z.toNat from hxyeq ▸ hyz]
            · by_cases hzy : z.toNat < y.toNat
              · rw [if_neg hyz, if_pos hzy] at h2
                simp at h2
              · have hyzeq : y.toNat = z.toNat :=
                  Nat.le_antisymm (Nat.le_of_not_lt hzy) (Nat.le_of_not_lt hyz)
                rw [if_neg hyz, if_neg hzy] at h2
                rw [show x.toNat = z.toNat from hxyeq.trans hyzeq]
                rw [if_neg (Nat.lt_irrefl _), if_neg (Nat.lt_irrefl _)]
                exact ih ys zs h1 h2

lemma charListLt_eq_of_not_lt : ∀ a b : List Char,
    charListLt a b = false → charListLt b a = false → a = b := by
  intro a
  induction a with
  | nil =>
    intro b h1 _
    cases b with
    | nil => rfl
    | cons y ys => simp [charListLt] at h1
  | cons x xs ih =>
    intro b h1 h2
    cases b with
    | nil => simp [charListLt] at h2
    | cons y ys =>
      simp only [charListLt] at h1 h2
      by_cases hxy : x.toNat < y.toNat
      · rw [if_pos hxy] at h1; simp at h1
      · by_cases hyx : y.toNat < x.toNat
        · rw [if_pos hyx] at h2; simp at h2
        · have hxyeq : x.toNat = y.toNat :=
            Nat.le_antisymm (Nat.le_of_not_lt hyx) (Nat.le_of_not_lt hxy)
          have hchar : x = y := Char.ext (UInt32.ext hxyeq)
          rw [if_neg hxy, if_neg hyx] at h1
          rw [if_neg hyx, if_neg hxy] at h2
          rw [hchar, ih ys h1 h2]

lemma strLt_trans {a b c : String} (h1 : strLt a b = true) (h2 : strLt b c = true) :
    strLt a c = true := charListLt_trans _ _ _ h1 h2

lemma strLt_eq_of_not_lt {a b : String} (h1 : strLt a b = false) (h2 : strLt b a = false) :
    a = b := by
  cases a with
  | mk da =>
    cases b with
    | mk db => exact congrArg String.mk (charListLt_eq_of_not_lt da db h1 h2)

lemma mem_insertSortedNoDup (x z : String) : ∀ l : List String,
    z ∈ insertSortedNoDup x l ↔ z = x ∨ z ∈ l := by
  intro l
  induction l with
  | nil => simp [insertSortedNoDup]
  | cons y ys ih =>
    unfold insertSortedNoDup
    by_cases hxy : x = y
    · subst hxy; simp [List.mem_cons]
    · by_cases hlt : strLt x y = true
      · simp [hxy, hlt, List.mem_cons]
      · simp [hxy, hlt, List.mem_cons, ih]; tauto

lemma pairwise_insertSortedNoDup (x : String) : ∀ l : List String,
    l.Pairwise (fun a b => strLt a b = true) →
    (insertSortedNoDup x l).Pairwise (fun a b => strLt a b = true) := by
  intro l
  induction l with
  | nil => intro _; simp [insertSortedNoDup]
  | cons y ys ih =>
    intro hl
    rw [List.pairwise_cons] at hl
    obtain ⟨hy, hys⟩ := hl
    unfold insertSortedNoDup
    by_cases hxy : x = y
    · rw [if_pos hxy]
      exact List.pairwise_cons.mpr ⟨hy, hys⟩
    · by_cases hlt : strLt x y = true
      · rw [if_neg hxy, if_pos hlt]
        rw [List.pairwise_cons]
        constructor
        · intro z hz
          rcases List.mem_cons.mp hz with rfl | hz
          · exact hlt
          · exact strLt_trans hlt (hy z hz)
        · exact List.pairwise_cons.mpr ⟨hy, hys⟩
      · rw [if_neg hxy, if_neg hlt]
        rw [List.pairwise_cons]
        constructor
        · intro z hz
          rcases (mem_insertSortedNoDup x z ys).mp hz with hzx | hz
          · subst hzx
            have hxyf : strLt z y = false := Bool.eq_false_iff.mpr hlt
            rcases hyx : strLt y z with _ | _
            · exact absurd (strLt_eq_of_not_lt hxyf hyx) hxy
            · rfl
          · exact hy z hz
        · exact ih hys

lemma sortedDedup_cons (x : String) (l : List String) :
    sortedDedup (x :: l) = insertSortedNoDup x (sortedDedup l) := rfl

lemma mem_sortedDedup (z : String) : ∀ l : List String,
    z ∈ sortedDedup l ↔ z ∈ l := by
  intro l
  induction l with
  | nil => simp [sortedDedup]
  | cons y ys ih =>
    rw [sortedDedup_cons, mem_insertSortedNoDup]
    simp [ih, List.mem_cons]

lemma pairwise_sortedDedup : ∀ l : List String,
    (sortedDedup l).Pairwise (fun a b => strLt a b = true) := by
  intro l
  induction l with
  | nil => simp [sortedDedup]
  | cons y ys ih =>
    rw [sortedDedup_cons]
    exact pairwise_insertSortedNoDup y _ ih

lemma bucketGet_ne_nil_mem {α : Type} (k : String) : ∀ m : Bucket α,
    bucketGet m k ≠ [] → k ∈ bucketKeys m := by
  intro m
  induction m with
  | nil => intro h; simp [bucketGet] at h
  | cons p rest ih =>
    obtain ⟨k', vs⟩ := p
    intro h
    show k ∈ k' :: bucketKeys rest
    by_cases hk : k' = k
    · rw [hk]; exact List.mem_cons_self _ _
    · rw [show bucketGet ((k', vs) :: rest) k = bucketGet rest k from if_neg hk] at h
      exact List.mem_cons_of_mem _ (ih h)

lemma bucket_cond_iff {α : Type} (m : Bucket α) (k : String) :
    (k ∈ bucketKeys m ∧ bucketGet m k ≠ []) ↔ bucketGet m k ≠ [] :=
  ⟨fun h => h.2, fun h => ⟨bucketGet_ne_nil_mem k m h, h⟩⟩

lemma kinds_sublist (c1 c2 c3 : Prop) [Decidable c1] [Decidable c2] [Decidable c3]
    (A V T : SubFolder) (hA : A.kind = .activities) (hV : V.kind = .visits)
    (hT : T.kind = .tracks) :
    ((((if c1 then [A] else []) ++ (if c2 then [V] else []) ++ (if c3 then [T] else []))
        ).map (·.kind)).Sublist [SubKind.activities, .visits, .tracks] := by
  by_cases h1 : c1 <;> by_cases h2 : c2 <;> by_cases h3 : c3 <;>
    simp [h1, h2, h3, hA, hV, hT]

lemma kind_mem_iff (sk : SubKind) (c1 c2 c3 : Prop)
    [Decidable c1] [Decidable c2] [Decidable c3]
    (A V T : SubFolder) (hA : A.kind = .activities) (hV : V.kind = .visits)
    (hT : T.kind = .tracks) :
    (sk ∈ (((if c1 then [A] else []) ++ (if c2 then [V] else []) ++ (if c3 then [T] else []))
        ).map (·.kind)) ↔
      ((sk = .activities ∧ c1) ∨ (sk = .visits ∧ c2) ∨ (sk = .tracks ∧ c3)) := by
  by_cases h1 : c1 <;> by_cases h2 : c2 <;> by_cases h3 : c3 <;>
    cases sk <;> simp [h1, h2, h3, hA, hV, hT]

/-- Claim C8: for every state reached by the processing pipeline from a
fresh converter, grouped serialization emits the day folders in strictly
ascending day-key order, the emitted day keys are exactly the keys
present in any of the three day-indexed maps (each therefore appearing
exactly once), and inside each day folder the sub-folders form a
subsequence of the fixed activities, visits, tracks order, each present
exactly when its per-day collection is nonempty. -/
theorem c8_day_folders :
    ∀ (cfg : Config) (data : List Entry) (s : ConvState),
      processEntries cfg data initState = some s →
      ((write_daily_folders s).map (·.dayKey)).Pairwise (fun a b => strLt a b = true)
        ∧ (∀ k, k ∈ (write_daily_folders s).map (·.dayKey) ↔
            (k ∈ bucketKeys s.activities_by_day ∨ k ∈ bucketKeys s.visits_by_day
              ∨ k ∈ bucketKeys s.tracks_by_day))
        ∧ ∀ df ∈ write_daily_folders s,
            (df.subfolders.map (·.kind)).Sublist [SubKind.activities, .visits, .tracks]
              ∧ (SubKind.activities ∈ df.subfolders.map (·.kind) ↔
                  bucketGet s.activities_by_day df.dayKey ≠ [])
              ∧ (SubKind.visits ∈ df.subfolders.map (·.kind) ↔
                  bucketGet s.visits_by_day df.dayKey ≠ [])
              ∧ (SubKind.tracks ∈ df.subfolders.map (·.kind) ↔
                  bucketGet s.tracks_by_day df.dayKey ≠ []) := by
  intro cfg data s hs
  have hinv : tracksSubsetActivities s :=
    tracksInv_run data cfg initState s hs
      (fun k hk => by simp [initState, bucketKeys] at hk)
  have hkeys : (write_daily_folders s).map (·.dayKey)
      = sortedDedup (bucketKeys s.activities_by_day ++ bucketKeys s.visits_by_day) := by
    rw [write_daily_folders, List.map_map]
    exact List.map_id' _
  refine ⟨?_, ?_, ?_⟩
  · rw [hkeys]; exact pairwise_sortedDedup _
  · intro k
    rw [hkeys, mem_sortedDedup, List.mem_append]
    constructor
    · rintro (h | h)
      · exact Or.inl h
      · exact Or.inr (Or.inl h)
    · rintro (h | h | h)
      · exact Or.inl h
      · exact Or.inr h
      · exact Or.inl (hinv k h)
  · intro df hdf
    rw [write_daily_folders] at hdf
    simp only [List.mem_map] at hdf
    obtain ⟨dk, _, rfl⟩ := hdf
    refine ⟨kinds_sublist _ _ _ _ _ _ rfl rfl rfl, ?_, ?_, ?_⟩
    · rw [kind_mem_iff .activities _ _ _ _ _ _ rfl rfl rfl]
      simp only [reduceCtorEq, false_and, or_false, true_and]
      exact bucket_cond_iff _ _
    · rw [kind_mem_iff .visits _ _ _ _ _ _ rfl rfl rfl]
      simp only [reduceCtorEq, false_and, or_false, false_or, true_and]
      exact bucket_cond_iff _ _
    · rw [kind_mem_iff .tracks _ _ _ _ _ _ rfl rfl rfl]
      simp only [reduceCtorEq, false_and, false_or, true_and]
      exact bucket_cond_iff _ _

/-- Raw visit record for the Claim C8 witness. -/
def e8 : Entry :=
  { startTime := some "2024-03-01T10:00:00Z",
    visit := some { topCandidate := some { placeLocation := some "geo:1.5,2.5" } } }

/-- Grouped configuration for the Claim C8 witness. -/
def cfg8 : Config := { group_by_day := true }

/-- State after running the pipeline on the one-record input. -/
def s8 : ConvState := (processEntries cfg8 [e8] initState).getD initState

/-- Witness for `c8_day_folders` on a concrete one-visit run,
discharging the reachability hypothesis. -/
theorem c8_witness :
    ((write_daily_folders s8).map (·.dayKey)).Pairwise (fun a b => strLt a b = true) :=
  (c8_day_folders cfg8 [e8] s8 (by decide)).1

end GoogleEarthTravel
